import Mathlib

/-!
Verification of the dyndnsr53 DynDNS responder core.

The development shallowly embeds the Go sources of the repository:

* `pkg/providers/route53/route53.go` — the zone-scoped Route53 provider:
  `validateFQDN` (zone-membership check) and `UpdateRecord` (upsert issue).
* `pkg/server` — the DynDNS HTTP update handler `dynDNSUpdateHandler`
  together with its `logAndRespond` closure and the response-code constants.

Go strings are modelled as `List Char`.  All string literals appearing in
the program are ASCII, so character-wise equality coincides with Go's
byte-wise string equality on every comparison the program performs.
The helper functions below are direct translations of the `strings` and
`encoding/base64` standard-library functions the program calls.
-/

namespace DynDnsR53

/-- A Go string, modelled as its list of characters. -/
abbrev GoString := List Char

/-- Characters of a Lean string literal, as a Go string value. -/
def chars (s : String) : GoString := s.data

/-- `strings.HasPrefix(s, p)`: `s` starts with `p`. -/
def startsWith (s p : GoString) : Bool := p.isPrefixOf s

/-- `strings.HasSuffix(s, suf)`: `s` ends with `suf`. -/
def endsWith (s suf : GoString) : Bool := suf.isSuffixOf s

/-- `strings.TrimSuffix(s, suf)`: drop one trailing copy of `suf` when present. -/
def trimSuffix (s suf : GoString) : GoString :=
  if endsWith s suf then s.take (s.length - suf.length) else s

/-- `strings.TrimPrefix(s, p)`: drop one leading copy of `p` when present. -/
def trimLeading (s p : GoString) : GoString :=
  if startsWith s p then s.drop p.length else s

/-- `strings.Contains(s, sub)`: `sub` occurs somewhere inside `s`. -/
def containsSub : GoString → GoString → Bool
  | [], sub => sub.isEmpty
  | c :: rest, sub => sub.isPrefixOf (c :: rest) || containsSub rest sub

/-- Scanning core of `strings.Count`: counts non-overlapping occurrences of the
non-empty pattern `sub`, scanning left to right and skipping past each match,
exactly as Go's repeated use of `strings.Index` does.  `fuel` only bounds the
recursion; `stringsCount` supplies enough of it for the scan to finish. -/
def countFrom (sub : GoString) : GoString → Nat → Nat
  | _, 0 => 0
  | [], _ => 0
  | c :: rest, fuel + 1 =>
    if sub.isPrefixOf (c :: rest) then countFrom sub ((c :: rest).drop sub.length) fuel + 1
    else countFrom sub rest fuel

/-- `strings.Count(s, sub)`: non-overlapping occurrences of `sub` in `s`;
for the empty pattern, one more than the number of characters. -/
def stringsCount (s sub : GoString) : Nat :=
  if sub.isEmpty then s.length + 1 else countFrom sub s s.length

/-- `strings.SplitN(s, sep, 2)` for the one-character separator `sep`:
at most two fields, split at the first occurrence of `sep`. -/
def splitN2 (sep : Char) : GoString → List GoString
  | [] => [[]]
  | c :: rest =>
    if c = sep then [[], rest]
    else
      match splitN2 sep rest with
      | [] => [[c]]
      | h :: t => (c :: h) :: t

section Route53

/-- `types.ChangeAction` of the Route53 SDK. -/
inductive ChangeAction where
  | CREATE | DELETE | UPSERT
deriving DecidableEq, Repr

/-- `types.RRType` of the Route53 SDK (the record types relevant here). -/
inductive RRType where
  | A | AAAA | CNAME | MX | NS | SOA | TXT
deriving DecidableEq, Repr

/-- `types.ResourceRecord`: one record value. -/
structure ResourceRecord where
  value : GoString
deriving DecidableEq, Repr

/-- `types.ResourceRecordSet`: a named record set. -/
structure ResourceRecordSet where
  name : GoString
  rrType : RRType
  ttl : Int
  resourceRecords : List ResourceRecord
deriving DecidableEq, Repr

/-- `types.Change`: one change of a change batch. -/
structure Change where
  action : ChangeAction
  resourceRecordSet : ResourceRecordSet
deriving DecidableEq, Repr

/-- `types.ChangeBatch`. -/
structure ChangeBatch where
  changes : List Change
deriving DecidableEq, Repr

/-- `route53.ChangeResourceRecordSetsInput`: the upstream change request. -/
structure ChangeResourceRecordSetsInput where
  hostedZoneId : GoString
  changeBatch : ChangeBatch
deriving DecidableEq, Repr

/-- The zone-scoped Route53 provider (`Provider` in `route53.go`); the
SDK client itself is abstracted away, the zone binding is kept. -/
structure Provider where
  zoneID : GoString
  zoneName : GoString
deriving DecidableEq, Repr

/-- `(*Provider).validateFQDN` from `route53.go`: membership of `fqdn`
in the provider's hosted zone. -/
def Provider.validateFQDN (p : Provider) (fqdn : GoString) : Except GoString Unit :=
  let cleanFQDN := trimSuffix fqdn (chars ".")
  let cleanZone := trimSuffix p.zoneName (chars ".")
  if !endsWith cleanFQDN (chars "." ++ cleanZone) && !(cleanFQDN == cleanZone) then
    .error (chars "FQDN " ++ fqdn ++ chars " does not belong to hosted zone " ++ p.zoneName)
  else if stringsCount cleanFQDN cleanZone > 1 then
    .error (chars "FQDN " ++ fqdn ++ chars " contains zone name " ++ p.zoneName
      ++ chars " multiple times")
  else
    .ok ()

/-- `(*Provider).UpdateRecord` from `route53.go`.  The SDK call
`client.ChangeResourceRecordSets` is abstracted as the function `upstream`;
the returned list records every change request actually issued to it. -/
def Provider.updateRecord (p : Provider)
    (upstream : ChangeResourceRecordSetsInput → Except GoString Unit)
    (fqdn ip : GoString) : Except GoString Unit × List ChangeResourceRecordSetsInput :=
  if fqdn == [] || ip == [] then
    (.error (chars "fqdn and ip must not be empty"), [])
  else
    match p.validateFQDN fqdn with
    | .error e => (.error e, [])
    | .ok _ =>
      let input : ChangeResourceRecordSetsInput :=
        { hostedZoneId := p.zoneID
          changeBatch :=
            { changes :=
                [{ action := .UPSERT
                   resourceRecordSet :=
                     { name := fqdn
                       rrType := .A
                       ttl := 60
                       resourceRecords := [{ value := ip }] } }] } }
      (upstream input, [input])

end Route53

section Base64

/-- Value of one character of the standard base64 alphabet
(`encoding/base64.StdEncoding`). -/
def b64Val (c : Char) : Option Nat :=
  if 'A' ≤ c ∧ c ≤ 'Z' then some (c.toNat - 'A'.toNat)
  else if 'a' ≤ c ∧ c ≤ 'z' then some (c.toNat - 'a'.toNat + 26)
  else if '0' ≤ c ∧ c ≤ '9' then some (c.toNat - '0'.toNat + 52)
  else if c = '+' then some 62
  else if c = '/' then some 63
  else none

/-- Decode base64 input four characters at a time, as
`base64.StdEncoding.DecodeString` does: every quantum is four alphabet
characters, except that the final quantum may end in `=` (three data
characters, two output bytes) or `==` (two data characters, one output
byte).  Unused trailing bits are ignored, as in Go's non-strict decoder.
Any other shape — a character outside the alphabet, a length not a
multiple of four, or padding before the end — is an error. -/
def decodeQuanta : GoString → Option (List Nat)
  | [] => some []
  | c1 :: c2 :: c3 :: c4 :: rest => do
    let v1 ← b64Val c1
    let v2 ← b64Val c2
    if c3 = '=' then
      if c4 = '=' ∧ rest = [] then some [v1 * 4 + v2 / 16] else none
    else do
      let v3 ← b64Val c3
      if c4 = '=' then
        if rest = [] then some [v1 * 4 + v2 / 16, v2 % 16 * 16 + v3 / 4] else none
      else do
        let v4 ← b64Val c4
        let bytes ← decodeQuanta rest
        some ([v1 * 4 + v2 / 16, v2 % 16 * 16 + v3 / 4, v3 % 4 * 64 + v4] ++ bytes)
  | _ => none

/-- `base64.StdEncoding.DecodeString`: the decoder first ignores carriage
returns and newlines anywhere in the input, then decodes in quanta.
Returns the decoded bytes, or `none` where Go returns a `CorruptInputError`. -/
def decodeBase64 (s : GoString) : Option (List Nat) :=
  decodeQuanta (s.filter fun c => !(c = '\r' || c = '\n'))

/-- Go's `string(payload)` conversion of decoded bytes, for use in the
byte-wise comparisons the handler performs.  Decoded bytes are below 256,
where `Char.ofNat` is injective, so equality with the ASCII credential
literals and splitting at `':'` agree exactly with Go's byte-wise
operations. -/
def bytesToStr (bs : List Nat) : GoString := bs.map Char.ofNat

end Base64

section Server

/-- DynDNS return codes (`pkg/server`): `MsgGood`. -/
def MsgGood : GoString := chars "good"
/-- `MsgNoChg`. -/
def MsgNoChg : GoString := chars "nochg"
/-- `MsgBadAuth`. -/
def MsgBadAuth : GoString := chars "badauth"
/-- `MsgNotDonator`. -/
def MsgNotDonator : GoString := chars "!donator"
/-- `MsgNotFQDN` (note: the constant's string is `nofqdn`). -/
def MsgNotFQDN : GoString := chars "nofqdn"
/-- `MsgNoHost`. -/
def MsgNoHost : GoString := chars "nohost"
/-- `MsgNumHost`. -/
def MsgNumHost : GoString := chars "numhost"
/-- `MsgAbuse`. -/
def MsgAbuse : GoString := chars "abuse"
/-- `MsgBadAgent`. -/
def MsgBadAgent : GoString := chars "badagent"
/-- `MsgDNSErr`. -/
def MsgDNSErr : GoString := chars "dnserr"
/-- `Msg911`. -/
def Msg911 : GoString := chars "911"

/-- Hard-coded credential/user-agent configuration of `pkg/server`. -/
def validUser : GoString := chars "user"
/-- `validPassword`. -/
def validPassword : GoString := chars "pass"
/-- `validUserAgent`. -/
def validUserAgent : GoString := chars "dyndnsr53-client"

/-- The data of one parsed HTTP request, as the handler reads it:
`r.Header.Get` and `r.URL.Query().Get` return the empty string when the
header or parameter is absent.  `elapsed` models the wall-clock reading
`time.Since(startTime).String()` taken when the response is produced. -/
structure Request where
  remoteAddr : GoString
  method : GoString
  userAgent : GoString
  authHeader : GoString
  hostname : GoString
  myip : GoString
  elapsed : GoString
deriving DecidableEq, Repr

/-- `RequestLog` of `pkg/server` (the wall-clock `Timestamp` field is
abstracted away together with `startTime`). -/
structure RequestLog where
  remoteAddr : GoString
  method : GoString
  userAgent : GoString
  username : GoString
  fqdn : GoString
  ip : GoString
  statusCode : Nat
  response : GoString
  errorMessage : GoString
  duration : GoString
deriving DecidableEq, Repr

/-- The pure model of a `provider.Provider`: `UpdateRecord(fqdn, ip)`
returning `ok` or an error. -/
abbrev ProviderFn := GoString → GoString → Except GoString Unit

/-- Everything one call of the handler does that is observable:
the structured log records emitted (via `klog`), the HTTP responses
written (status code and body), and the `UpdateRecord` calls made. -/
structure HandlerOutput where
  logs : List RequestLog
  writes : List (Nat × GoString)
  providerCalls : List (GoString × GoString)
deriving DecidableEq, Repr

/-- `dynDNSUpdateHandler` of `pkg/server`, for a server whose `provider`
field is `providerOpt` (`none` models the nil provider of no-op mode).
The `logAndRespond` closure is translated literally: it emits one log
record (JSON marshalling of `RequestLog` cannot fail, so the marshal
guard is always taken) and writes `message ++ "\n"` with the given
status (`w.WriteHeader` is skipped at 200, which is the implicit status).
The one partial operation of the handler, the `parts[0]` read in the
bad-credentials warning, is embedded through `List.get?`; `none` models
a panic. -/
def dynDNSUpdateHandler (providerOpt : Option ProviderFn) (r : Request) :
    Option HandlerOutput :=
  let reqLog : RequestLog :=
    { remoteAddr := r.remoteAddr, method := r.method, userAgent := r.userAgent
      username := [], fqdn := [], ip := []
      statusCode := 0, response := [], errorMessage := [], duration := [] }
  let logAndRespond := fun (reqLog : RequestLog)
      (calls : List (GoString × GoString)) (statusCode : Nat)
      (message errorMsg : GoString) =>
    ({ logs := [{ reqLog with
                  statusCode := statusCode
                  response := message
                  errorMessage := errorMsg
                  duration := r.elapsed }]
       writes := [(statusCode, message ++ chars "\n")]
       providerCalls := calls } : HandlerOutput)
  -- Check User-Agent
  let ua := r.userAgent
  if ua == [] || !containsSub ua validUserAgent then
    some (logAndRespond reqLog [] 400 MsgBadAgent (chars "invalid user agent"))
  -- Check HTTP method (should be GET)
  else if !(r.method == chars "GET") then
    some (logAndRespond reqLog [] 405 MsgBadAgent (chars "method not allowed"))
  else
    -- Check Basic Auth
    let auth := r.authHeader
    if !startsWith auth (chars "Basic ") then
      some (logAndRespond reqLog [] 401 MsgBadAuth (chars "missing authorization header"))
    else
      match decodeBase64 (trimLeading auth (chars "Basic ")) with
      | none =>
        some (logAndRespond reqLog [] 401 MsgBadAuth (chars "invalid base64 in auth header"))
      | some payload =>
        let parts := splitN2 ':' (bytesToStr payload)
        if parts.length != 2 || !(parts.getD 0 [] == validUser)
            || !(parts.getD 1 [] == validPassword) then
          match parts.get? 0 with
          | none => none
          | some _ =>
            some (logAndRespond reqLog [] 401 MsgBadAuth (chars "invalid credentials"))
        else
          -- Set username in log
          let reqLog := { reqLog with username := parts.getD 0 [] }
          -- Parse query params
          let fqdn := r.hostname
          let ip := r.myip
          let reqLog := { reqLog with fqdn := fqdn, ip := ip }
          if fqdn == [] then
            some (logAndRespond reqLog [] 200 MsgNotFQDN (chars "missing hostname parameter"))
          else if ip == [] then
            some (logAndRespond reqLog [] 200 MsgDNSErr (chars "missing myip parameter"))
          else
            -- Use the provider to update the DNS record
            match providerOpt with
            | some p =>
              match p fqdn ip with
              | .error err =>
                some (logAndRespond reqLog [(fqdn, ip)] 200 MsgDNSErr
                  (chars "provider error: " ++ err))
              | .ok _ =>
                some (logAndRespond reqLog [(fqdn, ip)] 200
                  (MsgGood ++ chars " " ++ ip) [])
            | none =>
              some (logAndRespond reqLog [] 200 (MsgGood ++ chars " " ++ ip)
                (chars "no provider configured"))

/-- The handler's User-Agent check, exactly as the code evaluates it:
empty, or not containing the expected client identifier. -/
def uaBad (r : Request) : Bool :=
  r.userAgent == [] || !containsSub r.userAgent validUserAgent

/-- Outcome of the handler's Basic-Auth section, in isolation:
`some username` exactly when the header carries `Basic `, the payload is
valid base64 and decodes to `username:password` matching the configured
credentials; `none` on any failure. -/
def authUsername (r : Request) : Option GoString :=
  if !startsWith r.authHeader (chars "Basic ") then none
  else
    match decodeBase64 (trimLeading r.authHeader (chars "Basic ")) with
    | none => none
    | some payload =>
      let parts := splitN2 ':' (bytesToStr payload)
      if parts.length != 2 || !(parts.getD 0 [] == validUser)
          || !(parts.getD 1 [] == validPassword) then none
      else some (parts.getD 0 [])

/-- The log record `logAndRespond` emits when the request reached the
terminal outcome with the given log fields. -/
def expectedLog (r : Request) (username fqdn ip : GoString) (statusCode : Nat)
    (response errorMessage : GoString) : RequestLog :=
  { remoteAddr := r.remoteAddr
    method := r.method
    userAgent := r.userAgent
    username := username
    fqdn := fqdn
    ip := ip
    statusCode := statusCode
    response := response
    errorMessage := errorMessage
    duration := r.elapsed }

/-- The whole observable behaviour of a handler call that ends in
`logAndRespond(statusCode, message, errorMsg)` with the given log fields
and provider calls. -/
def terminal (r : Request) (username fqdn ip : GoString)
    (calls : List (GoString × GoString)) (statusCode : Nat)
    (message errorMsg : GoString) : HandlerOutput :=
  { logs := [expectedLog r username fqdn ip statusCode message errorMsg]
    writes := [(statusCode, message ++ chars "\n")]
    providerCalls := calls }

theorem splitN2_cons (sep : Char) (s : GoString) :
    ∃ h t, splitN2 sep s = h :: t := by
  cases s with
  | nil => exact ⟨[], [], rfl⟩
  | cons c rest =>
    simp only [splitN2]
    split
    · exact ⟨[], [rest], rfl⟩
    · rcases hm : splitN2 sep rest with _ | ⟨h, t⟩
      · exact ⟨[c], [], rfl⟩
      · exact ⟨c :: h, t, rfl⟩

/-- The part of the handler after a successful Basic-Auth check, as a
function of the remaining inputs: parameter checks, provider call,
response mapping. -/
def afterAuth (providerOpt : Option ProviderFn) (r : Request) (u : GoString) :
    HandlerOutput :=
  if r.hostname == [] then
    terminal r u r.hostname r.myip [] 200 MsgNotFQDN (chars "missing hostname parameter")
  else if r.myip == [] then
    terminal r u r.hostname r.myip [] 200 MsgDNSErr (chars "missing myip parameter")
  else
    match providerOpt with
    | some p =>
      match p r.hostname r.myip with
      | .error err =>
        terminal r u r.hostname r.myip [(r.hostname, r.myip)] 200 MsgDNSErr
          (chars "provider error: " ++ err)
      | .ok _ =>
        terminal r u r.hostname r.myip [(r.hostname, r.myip)] 200
          (MsgGood ++ chars " " ++ r.myip) []
    | none =>
      terminal r u r.hostname r.myip [] 200 (MsgGood ++ chars " " ++ r.myip)
        (chars "no provider configured")

theorem handler_of_uaBad (prov : Option ProviderFn) (r : Request)
    (h : uaBad r = true) :
    dynDNSUpdateHandler prov r =
      some (terminal r [] [] [] [] 400 MsgBadAgent (chars "invalid user agent")) := by
  unfold uaBad at h
  unfold dynDNSUpdateHandler
  simp only [h, if_true]
  rfl

theorem handler_of_badMethod (prov : Option ProviderFn) (r : Request)
    (h1 : uaBad r = false) (h2 : r.method ≠ chars "GET") :
    dynDNSUpdateHandler prov r =
      some (terminal r [] [] [] [] 405 MsgBadAgent (chars "method not allowed")) := by
  unfold uaBad at h1
  have h2' : (r.method == chars "GET") = false := by
    simp only [beq_eq_false_iff_ne, ne_eq]
    exact h2
  unfold dynDNSUpdateHandler
  simp only [h1, h2', Bool.false_eq_true, if_false, Bool.not_false, if_true]
  rfl

theorem handler_of_badAuth (prov : Option ProviderFn) (r : Request)
    (h1 : uaBad r = false) (h2 : r.method = chars "GET")
    (h3 : authUsername r = none) :
    ∃ e, dynDNSUpdateHandler prov r =
      some (terminal r [] [] [] [] 401 MsgBadAuth e) := by
  unfold uaBad at h1
  have h2' : (r.method == chars "GET") = true := by
    simp only [beq_iff_eq]; exact h2
  unfold authUsername at h3
  cases hsw : startsWith r.authHeader (chars "Basic ") with
  | false =>
    refine ⟨chars "missing authorization header", ?_⟩
    unfold dynDNSUpdateHandler
    simp only [h1, h2', hsw, Bool.false_eq_true, if_false, Bool.not_true,
      Bool.not_false, if_true]
    rfl
  | true =>
    rw [hsw] at h3
    simp only [Bool.not_true, Bool.false_eq_true, if_false] at h3
    cases hdec : decodeBase64 (trimLeading r.authHeader (chars "Basic ")) with
    | none =>
      refine ⟨chars "invalid base64 in auth header", ?_⟩
      unfold dynDNSUpdateHandler
      simp only [h1, h2', hsw, hdec, Bool.false_eq_true, if_false, Bool.not_true,
        Bool.not_false, if_true]
      rfl
    | some payload =>
      rw [hdec] at h3
      obtain ⟨hd, tl, hsp⟩ := splitN2_cons ':' (bytesToStr payload)
      simp only [hsp] at h3
      cases hc : ((hd :: tl).length != 2 || !((hd :: tl).getD 0 [] == validUser)
          || !((hd :: tl).getD 1 [] == validPassword)) with
      | false =>
        exfalso
        rw [hc] at h3
        simp at h3
      | true =>
        refine ⟨chars "invalid credentials", ?_⟩
        unfold dynDNSUpdateHandler
        simp only [h1, h2', hsw, hdec, hsp, hc, Bool.false_eq_true, if_false,
          Bool.not_true, Bool.not_false, if_true]
        rfl

theorem handler_of_authOk (prov : Option ProviderFn) (r : Request) (u : GoString)
    (h1 : uaBad r = false) (h2 : r.method = chars "GET")
    (h3 : authUsername r = some u) :
    dynDNSUpdateHandler prov r = some (afterAuth prov r u) := by
  unfold uaBad at h1
  have h2' : (r.method == chars "GET") = true := by
    simp only [beq_iff_eq]; exact h2
  unfold authUsername at h3
  cases hsw : startsWith r.authHeader (chars "Basic ") with
  | false =>
    exfalso
    rw [hsw] at h3
    simp at h3
  | true =>
    rw [hsw] at h3
    simp only [Bool.not_true, Bool.false_eq_true, if_false] at h3
    cases hdec : decodeBase64 (trimLeading r.authHeader (chars "Basic ")) with
    | none =>
      exfalso
      rw [hdec] at h3
      simp at h3
    | some payload =>
      rw [hdec] at h3
      obtain ⟨hd, tl, hsp⟩ := splitN2_cons ':' (bytesToStr payload)
      simp only [hsp] at h3
      cases hc : ((hd :: tl).length != 2 || !((hd :: tl).getD 0 [] == validUser)
          || !((hd :: tl).getD 1 [] == validPassword)) with
      | true =>
        exfalso
        rw [hc] at h3
        simp at h3
      | false =>
        rw [hc] at h3
        simp only [Bool.false_eq_true, if_false, Option.some.injEq] at h3
        subst h3
        cases hfq : (r.hostname == []) with
        | true =>
          unfold dynDNSUpdateHandler afterAuth terminal expectedLog
          simp only [h1, h2', hsw, hdec, hsp, hc, hfq, Bool.false_eq_true, if_false,
            Bool.not_true, Bool.not_false, if_true]
        | false =>
          cases hip : (r.myip == []) with
          | true =>
            unfold dynDNSUpdateHandler afterAuth terminal expectedLog
            simp only [h1, h2', hsw, hdec, hsp, hc, hfq, hip, Bool.false_eq_true,
              if_false, Bool.not_true, Bool.not_false, if_true]
          | false =>
            cases prov with
            | none =>
              unfold dynDNSUpdateHandler afterAuth terminal expectedLog
              simp only [h1, h2', hsw, hdec, hsp, hc, hfq, hip, Bool.false_eq_true,
                if_false, Bool.not_true, Bool.not_false, if_true]
            | some p =>
              cases hp : p r.hostname r.myip with
              | error e =>
                unfold dynDNSUpdateHandler afterAuth terminal expectedLog
                simp only [h1, h2', hsw, hdec, hsp, hc, hfq, hip, hp,
                  Bool.false_eq_true, if_false, Bool.not_true, Bool.not_false, if_true]
              | ok v =>
                unfold dynDNSUpdateHandler afterAuth terminal expectedLog
                simp only [h1, h2', hsw, hdec, hsp, hc, hfq, hip, hp,
                  Bool.false_eq_true, if_false, Bool.not_true, Bool.not_false, if_true]

theorem afterAuth_shape (prov : Option ProviderFn) (r : Request) (u : GoString) :
    ∃ calls sc msg err,
      afterAuth prov r u = terminal r u r.hostname r.myip calls sc msg err ∧
      (msg = MsgNotFQDN ∨ msg = MsgDNSErr ∨ msg = MsgGood ++ chars " " ++ r.myip) ∧
      calls.length ≤ 1 := by
  unfold afterAuth
  cases hfq : (r.hostname == []) with
  | true =>
    simp only [hfq, if_true]
    exact ⟨_, _, _, _, rfl, Or.inl rfl, by simp⟩
  | false =>
    cases hip : (r.myip == []) with
    | true =>
      simp only [hfq, hip, Bool.false_eq_true, if_false, if_true]
      exact ⟨_, _, _, _, rfl, Or.inr (Or.inl rfl), by simp⟩
    | false =>
      simp only [hfq, hip, Bool.false_eq_true, if_false]
      cases prov with
      | none => exact ⟨_, _, _, _, rfl, Or.inr (Or.inr rfl), by simp⟩
      | some p =>
        cases hp : p r.hostname r.myip with
        | error e =>
          simp only [hp]
          exact ⟨_, _, _, _, rfl, Or.inr (Or.inl rfl), by simp⟩
        | ok v =>
          simp only [hp]
          exact ⟨_, _, _, _, rfl, Or.inr (Or.inr rfl), by simp⟩

theorem handler_shape (prov : Option ProviderFn) (r : Request) :
    ∃ u f i calls sc msg err,
      dynDNSUpdateHandler prov r = some (terminal r u f i calls sc msg err) ∧
      (msg = MsgBadAgent ∨ msg = MsgBadAuth ∨ msg = MsgNotFQDN ∨ msg = MsgDNSErr ∨
        msg = MsgGood ++ chars " " ++ r.myip) ∧
      calls.length ≤ 1 := by
  cases hua : uaBad r with
  | true =>
    exact ⟨_, _, _, _, _, _, _, handler_of_uaBad prov r hua, Or.inl rfl, by simp⟩
  | false =>
    by_cases hm : r.method = chars "GET"
    · cases h3 : authUsername r with
      | none =>
        obtain ⟨e, he⟩ := handler_of_badAuth prov r hua hm h3
        exact ⟨_, _, _, _, _, _, _, he, Or.inr (Or.inl rfl), by simp⟩
      | some u =>
        have hrun := handler_of_authOk prov r u hua hm h3
        obtain ⟨calls, sc, msg, err, heq, hmsg, hcalls⟩ := afterAuth_shape prov r u
        refine ⟨u, r.hostname, r.myip, calls, sc, msg, err, ?_, ?_, hcalls⟩
        · rw [hrun, heq]
        · rcases hmsg with h | h | h
          · exact Or.inr (Or.inr (Or.inl h))
          · exact Or.inr (Or.inr (Or.inr (Or.inl h)))
          · exact Or.inr (Or.inr (Or.inr (Or.inr h)))
    · exact ⟨_, _, _, _, _, _, _, handler_of_badMethod prov r hua hm, Or.inl rfl, by simp⟩

end Server

/-! ## Claim theorems -/

/-- The provider configuration used throughout the repository's tests:
hosted zone `blahonga.me`. -/
def blahongaProvider : Provider :=
  { zoneID := chars "Z1234567890", zoneName := chars "blahonga.me" }

/-- C1: for every fqdn (and every zone binding), `validateFQDN` accepts
exactly when, after stripping one trailing dot from both strings, the fqdn
equals the zone name or ends with `"."` followed by the zone name, and the
zone-name string occurs at most once (as `strings.Count` counts, scanning
non-overlapping occurrences) in the normalized fqdn; in particular the
listed examples against zone `blahonga.me` are accepted resp. rejected. -/
theorem validateFQDN_zone_membership :
    (∀ (p : Provider) (fqdn : GoString),
      p.validateFQDN fqdn = .ok () ↔
        ((trimSuffix fqdn (chars ".") = trimSuffix p.zoneName (chars ".") ∨
          endsWith (trimSuffix fqdn (chars "."))
            (chars "." ++ trimSuffix p.zoneName (chars ".")) = true) ∧
         stringsCount (trimSuffix fqdn (chars "."))
           (trimSuffix p.zoneName (chars ".")) ≤ 1))
    ∧ (blahongaProvider.validateFQDN (chars "home.blahonga.me")).isOk = true
    ∧ (blahongaProvider.validateFQDN (chars "blahonga.me")).isOk = true
    ∧ (blahongaProvider.validateFQDN (chars "api.v1.home.blahonga.me")).isOk = true
    ∧ (blahongaProvider.validateFQDN (chars "home.blahonga.me.")).isOk = true
    ∧ (blahongaProvider.validateFQDN (chars "blahonga.me.")).isOk = true
    ∧ (blahongaProvider.validateFQDN (chars "api.v1.home.blahonga.me.")).isOk = true
    ∧ (blahongaProvider.validateFQDN (chars "home.example.com")).isOk = false
    ∧ (blahongaProvider.validateFQDN (chars "home.example.com.")).isOk = false
    ∧ (blahongaProvider.validateFQDN (chars "home.blahonga.me.blahonga.me")).isOk = false
    ∧ (blahongaProvider.validateFQDN (chars "home.blahonga.me.blahonga.me.")).isOk = false := by
  refine ⟨?_, by decide, by decide, by decide, by decide, by decide, by decide,
    by decide, by decide, by decide, by decide⟩
  intro p fqdn
  unfold Provider.validateFQDN
  cases h1 : (!endsWith (trimSuffix fqdn (chars "."))
      (chars "." ++ trimSuffix p.zoneName (chars "."))
      && !(trimSuffix fqdn (chars ".") == trimSuffix p.zoneName (chars "."))) with
  | true =>
    simp only [h1, if_true]
    simp only [Bool.and_eq_true, Bool.not_eq_true'] at h1
    obtain ⟨he, hne⟩ := h1
    simp [he, beq_eq_false_iff_ne.mp hne]
  | false =>
    simp only [h1, Bool.false_eq_true, if_false]
    split_ifs with h2
    · constructor
      · intro h
        exact absurd h (by simp)
      · rintro ⟨-, hle⟩
        omega
    · have h1' : trimSuffix fqdn (chars ".") = trimSuffix p.zoneName (chars ".") ∨
          endsWith (trimSuffix fqdn (chars "."))
            (chars "." ++ trimSuffix p.zoneName (chars ".")) = true := by
        by_contra hcon
        push_neg at hcon
        obtain ⟨hne, hee⟩ := hcon
        simp only [ne_eq, Bool.not_eq_true] at hee
        simp [hee, beq_eq_false_iff_ne.mpr hne] at h1
      exact ⟨fun _ => ⟨h1', Nat.le_of_not_lt h2⟩, fun _ => rfl⟩

/-- C10: there is an fqdn that is a genuine proper subdomain of the hosted
zone `blahonga.me` — after trailing-dot stripping it ends with `"."`
followed by the zone name — yet `validateFQDN` rejects it, because the
zone-name string occurs twice in it: `blahonga.me.x.blahonga.me`. -/
theorem validateFQDN_rejects_genuine_subdomain :
    ∃ fqdn : GoString,
      fqdn = chars "blahonga.me.x.blahonga.me" ∧
      endsWith (trimSuffix fqdn (chars "."))
        (chars "." ++ trimSuffix blahongaProvider.zoneName (chars ".")) = true ∧
      stringsCount (trimSuffix fqdn (chars "."))
        (trimSuffix blahongaProvider.zoneName (chars ".")) = 2 ∧
      (blahongaProvider.validateFQDN fqdn).isOk = false :=
  ⟨chars "blahonga.me.x.blahonga.me", rfl, by decide, by decide, by decide⟩

/-- C6: `UpdateRecord` with an empty fqdn, an empty ip, or an fqdn that
fails the zone membership check returns an error and issues no upstream
change request. -/
theorem updateRecord_error_no_upstream :
    ∀ (p : Provider) (upstream : ChangeResourceRecordSetsInput → Except GoString Unit)
      (fqdn ip : GoString),
      (fqdn = [] ∨ ip = [] ∨ ∃ e, p.validateFQDN fqdn = .error e) →
      (∃ e, (p.updateRecord upstream fqdn ip).1 = .error e) ∧
      (p.updateRecord upstream fqdn ip).2 = [] := by
  intro p upstream fqdn ip h
  rcases h with h | h | ⟨e, he⟩
  · subst h
    exact ⟨⟨chars "fqdn and ip must not be empty", by simp [Provider.updateRecord]⟩,
      by simp [Provider.updateRecord]⟩
  · subst h
    exact ⟨⟨chars "fqdn and ip must not be empty", by simp [Provider.updateRecord]⟩,
      by simp [Provider.updateRecord]⟩
  · by_cases hq : fqdn = [] ∨ ip = []
    · exact ⟨⟨chars "fqdn and ip must not be empty",
        by simp [Provider.updateRecord, hq]⟩, by simp [Provider.updateRecord, hq]⟩
    · exact ⟨⟨e, by simp [Provider.updateRecord, hq, he]⟩,
        by simp [Provider.updateRecord, hq, he]⟩

/-- Witness for C6 at a concrete input: empty fqdn against the
`blahonga.me` provider. -/
theorem updateRecord_error_no_upstream_witness :
    (∃ e, (blahongaProvider.updateRecord (fun _ => .ok ()) [] (chars "1.2.3.4")).1
      = .error e) ∧
    (blahongaProvider.updateRecord (fun _ => .ok ()) [] (chars "1.2.3.4")).2 = [] :=
  updateRecord_error_no_upstream blahongaProvider (fun _ => .ok ()) [] (chars "1.2.3.4")
    (Or.inl rfl)

/-- The single upsert change request `UpdateRecord` constructs: against the
bound hosted zone, one `UPSERT` of an `A` record named `fqdn`, TTL 60,
with the single value `ip`. -/
def upsertInput (p : Provider) (fqdn ip : GoString) : ChangeResourceRecordSetsInput :=
  { hostedZoneId := p.zoneID
    changeBatch :=
      { changes :=
          [{ action := .UPSERT
             resourceRecordSet :=
               { name := fqdn
                 rrType := .A
                 ttl := 60
                 resourceRecords := [{ value := ip }] } }] } }

/-- C7: when the emptiness and zone membership checks pass, `UpdateRecord`
issues exactly one change request — the single-`UPSERT` `A`-record change
batch `upsertInput` against the bound zone ID, name `fqdn`, value `ip`,
TTL 60 — and returns the upstream outcome. -/
theorem updateRecord_issues_single_upsert :
    ∀ (p : Provider) (upstream : ChangeResourceRecordSetsInput → Except GoString Unit)
      (fqdn ip : GoString),
      fqdn ≠ [] → ip ≠ [] → p.validateFQDN fqdn = .ok () →
      p.updateRecord upstream fqdn ip =
        (upstream (upsertInput p fqdn ip), [upsertInput p fqdn ip]) := by
  intro p upstream fqdn ip hf hi hv
  have hq : (fqdn == [] || ip == []) = false := by simp [hf, hi]
  unfold Provider.updateRecord
  simp only [hq, Bool.false_eq_true, if_false, hv]
  rfl

/-- Witness for C7 at a concrete input: `home.blahonga.me` / `1.2.3.4`
against the `blahonga.me` provider. -/
theorem updateRecord_issues_single_upsert_witness :
    blahongaProvider.updateRecord (fun _ => .ok ())
        (chars "home.blahonga.me") (chars "1.2.3.4") =
      ((fun _ => (.ok () : Except GoString Unit))
          (upsertInput blahongaProvider (chars "home.blahonga.me") (chars "1.2.3.4")),
        [upsertInput blahongaProvider (chars "home.blahonga.me") (chars "1.2.3.4")]) :=
  updateRecord_issues_single_upsert blahongaProvider (fun _ => .ok ())
    (chars "home.blahonga.me") (chars "1.2.3.4") (by decide) (by decide) rfl

/-- A concrete request failing the User-Agent check. -/
def reqBadUA : Request :=
  { remoteAddr := chars "192.0.2.1:4242", method := chars "GET"
    userAgent := chars "curl/8.0", authHeader := chars "Basic dXNlcjpwYXNz"
    hostname := chars "test.example.com", myip := chars "1.2.3.4"
    elapsed := chars "1ms" }

/-- A concrete request passing the User-Agent check but using POST. -/
def reqBadMethod : Request :=
  { reqBadUA with userAgent := chars "dyndnsr53-client", method := chars "POST" }

/-- A concrete fully valid request (GET, good user agent, credentials
`user:pass` base64-encoded, both query parameters present). -/
def reqGood : Request :=
  { reqBadUA with userAgent := chars "dyndnsr53-client" }

/-- C2: the handler's validation checks run in the fixed order
User-Agent, method, Basic-Auth, hostname, myip; the first failing check
fully determines the terminal response — independently of every later
field and of the provider — and on any validation failure the provider
is never invoked. -/
theorem handler_check_precedence :
    ∀ (prov : Option ProviderFn) (r : Request),
      (uaBad r = true →
        dynDNSUpdateHandler prov r =
          some (terminal r [] [] [] [] 400 MsgBadAgent (chars "invalid user agent"))) ∧
      (uaBad r = false → r.method ≠ chars "GET" →
        dynDNSUpdateHandler prov r =
          some (terminal r [] [] [] [] 405 MsgBadAgent (chars "method not allowed"))) ∧
      (uaBad r = false → r.method = chars "GET" → authUsername r = none →
        ∃ e, dynDNSUpdateHandler prov r =
          some (terminal r [] [] [] [] 401 MsgBadAuth e)) ∧
      (∀ u, uaBad r = false → r.method = chars "GET" → authUsername r = some u →
        r.hostname = [] →
        dynDNSUpdateHandler prov r =
          some (terminal r u [] r.myip [] 200 MsgNotFQDN
            (chars "missing hostname parameter"))) ∧
      (∀ u, uaBad r = false → r.method = chars "GET" → authUsername r = some u →
        r.hostname ≠ [] → r.myip = [] →
        dynDNSUpdateHandler prov r =
          some (terminal r u r.hostname [] [] 200 MsgDNSErr
            (chars "missing myip parameter"))) ∧
      ((uaBad r = true ∨ r.method ≠ chars "GET" ∨ authUsername r = none ∨
          r.hostname = [] ∨ r.myip = []) →
        ∀ out, dynDNSUpdateHandler prov r = some out → out.providerCalls = []) := by
  intro prov r
  refine ⟨handler_of_uaBad prov r, handler_of_badMethod prov r,
    handler_of_badAuth prov r, ?_, ?_, ?_⟩
  · intro u h1 h2 h3 hfq
    rw [handler_of_authOk prov r u h1 h2 h3]
    unfold afterAuth
    simp [hfq, terminal, expectedLog]
  · intro u h1 h2 h3 hfq hip
    rw [handler_of_authOk prov r u h1 h2 h3]
    unfold afterAuth
    simp [hfq, hip, terminal, expectedLog]
  · intro hfail out hout
    cases hua : uaBad r with
    | true =>
      rw [handler_of_uaBad prov r hua] at hout
      cases hout
      rfl
    | false =>
      by_cases hm : r.method = chars "GET"
      · cases ha : authUsername r with
        | none =>
          obtain ⟨e, he⟩ := handler_of_badAuth prov r hua hm ha
          rw [he] at hout
          cases hout
          rfl
        | some u =>
          rw [handler_of_authOk prov r u hua hm ha] at hout
          cases hout
          rcases hfail with h | h | h | h | h
          · rw [hua] at h
            cases h
          · exact absurd hm h
          · rw [ha] at h
            cases h
          · unfold afterAuth
            simp [h, terminal]
          · unfold afterAuth
            cases hfq : (r.hostname == []) with
            | true => simp [hfq, terminal]
            | false => simp [hfq, h, terminal]
      · rw [handler_of_badMethod prov r hua hm] at hout
        cases hout
        rfl

/-- Witness for C2 at concrete inputs: a bad-user-agent request and a
POST request. -/
theorem handler_check_precedence_witness :
    dynDNSUpdateHandler none reqBadUA =
      some (terminal reqBadUA [] [] [] [] 400 MsgBadAgent (chars "invalid user agent")) ∧
    dynDNSUpdateHandler none reqBadMethod =
      some (terminal reqBadMethod [] [] [] [] 405 MsgBadAgent (chars "method not allowed")) :=
  ⟨(handler_check_precedence none reqBadUA).1 (by decide),
   (handler_check_precedence none reqBadMethod).2.1 (by decide) (by decide)⟩

/-- C3: the authoritative (response code, HTTP status) mapping:
bad/missing user-agent → `badagent`/400; wrong method → `badagent`/405;
auth failure → `badauth`/401; missing hostname → `nofqdn`/200; missing
myip → `dnserr`/200; provider failure → `dnserr`/200; provider absent →
`good <ip>`/200; provider success → `good <ip>`/200. -/
theorem handler_response_mapping :
    ∀ (prov : Option ProviderFn) (r : Request),
      (uaBad r = true → ∃ out, dynDNSUpdateHandler prov r = some out ∧
        out.writes = [(400, MsgBadAgent ++ chars "\n")]) ∧
      (uaBad r = false → r.method ≠ chars "GET" →
        ∃ out, dynDNSUpdateHandler prov r = some out ∧
          out.writes = [(405, MsgBadAgent ++ chars "\n")]) ∧
      (uaBad r = false → r.method = chars "GET" → authUsername r = none →
        ∃ out, dynDNSUpdateHandler prov r = some out ∧
          out.writes = [(401, MsgBadAuth ++ chars "\n")]) ∧
      (∀ u, uaBad r = false → r.method = chars "GET" → authUsername r = some u →
        r.hostname = [] →
        ∃ out, dynDNSUpdateHandler prov r = some out ∧
          out.writes = [(200, MsgNotFQDN ++ chars "\n")]) ∧
      (∀ u, uaBad r = false → r.method = chars "GET" → authUsername r = some u →
        r.hostname ≠ [] → r.myip = [] →
        ∃ out, dynDNSUpdateHandler prov r = some out ∧
          out.writes = [(200, MsgDNSErr ++ chars "\n")]) ∧
      (∀ u p e, uaBad r = false → r.method = chars "GET" → authUsername r = some u →
        r.hostname ≠ [] → r.myip ≠ [] → prov = some p →
        p r.hostname r.myip = .error e →
        ∃ out, dynDNSUpdateHandler prov r = some out ∧
          out.writes = [(200, MsgDNSErr ++ chars "\n")]) ∧
      (∀ u, uaBad r = false → r.method = chars "GET" → authUsername r = some u →
        r.hostname ≠ [] → r.myip ≠ [] → prov = none →
        ∃ out, dynDNSUpdateHandler prov r = some out ∧
          out.writes = [(200, MsgGood ++ chars " " ++ r.myip ++ chars "\n")]) ∧
      (∀ u p, uaBad r = false → r.method = chars "GET" → authUsername r = some u →
        r.hostname ≠ [] → r.myip ≠ [] → prov = some p →
        p r.hostname r.myip = .ok () →
        ∃ out, dynDNSUpdateHandler prov r = some out ∧
          out.writes = [(200, MsgGood ++ chars " " ++ r.myip ++ chars "\n")]) := by
  intro prov r
  refine ⟨?_, ?_, ?_, ?_, ?_, ?_, ?_, ?_⟩
  · intro h
    exact ⟨_, handler_of_uaBad prov r h, rfl⟩
  · intro h1 h2
    exact ⟨_, handler_of_badMethod prov r h1 h2, rfl⟩
  · intro h1 h2 h3
    obtain ⟨e, he⟩ := handler_of_badAuth prov r h1 h2 h3
    exact ⟨_, he, rfl⟩
  · intro u h1 h2 h3 hfq
    refine ⟨_, handler_of_authOk prov r u h1 h2 h3, ?_⟩
    unfold afterAuth
    simp [hfq, terminal]
  · intro u h1 h2 h3 hfq hip
    refine ⟨_, handler_of_authOk prov r u h1 h2 h3, ?_⟩
    unfold afterAuth
    simp [hfq, hip, terminal]
  · intro u p e h1 h2 h3 hfq hip hp hpe
    subst hp
    refine ⟨_, handler_of_authOk (some p) r u h1 h2 h3, ?_⟩
    unfold afterAuth
    simp [hfq, hip, hpe, terminal]
  · intro u h1 h2 h3 hfq hip hp
    subst hp
    refine ⟨_, handler_of_authOk none r u h1 h2 h3, ?_⟩
    unfold afterAuth
    simp [hfq, hip, terminal]
  · intro u p h1 h2 h3 hfq hip hp hpe
    subst hp
    refine ⟨_, handler_of_authOk (some p) r u h1 h2 h3, ?_⟩
    unfold afterAuth
    simp [hfq, hip, hpe, terminal]

/-- Witness for C3 at concrete inputs: the no-provider row on a fully
valid request, and the provider-success row. -/
theorem handler_response_mapping_witness :
    (∃ out, dynDNSUpdateHandler none reqGood = some out ∧
      out.writes = [(200, MsgGood ++ chars " " ++ reqGood.myip ++ chars "\n")]) ∧
    (∃ out, dynDNSUpdateHandler (some fun _ _ => .ok ()) reqGood = some out ∧
      out.writes = [(200, MsgGood ++ chars " " ++ reqGood.myip ++ chars "\n")]) :=
  ⟨(handler_response_mapping none reqGood).2.2.2.2.2.2.1 (chars "user")
      (by decide) (by decide) (by decide) (by decide) (by decide) rfl,
   (handler_response_mapping (some fun _ _ => .ok ()) reqGood).2.2.2.2.2.2.2
      (chars "user") (fun _ _ => .ok ()) (by decide) (by decide) (by decide)
      (by decide) (by decide) rfl rfl⟩

/-- C4: past the User-Agent and method checks, each Basic-Auth failure
mode — missing Authorization header, header not beginning with `Basic `,
invalid base64 payload, decoded payload without a `:`-separated pair,
or credentials not exactly matching — yields `badauth` with HTTP 401 and
no provider call. -/
theorem handler_badauth_modes :
    ∀ (prov : Option ProviderFn) (r : Request),
      uaBad r = false → r.method = chars "GET" →
      ((r.authHeader = [] →
        ∃ out, dynDNSUpdateHandler prov r = some out ∧
          out.writes = [(401, MsgBadAuth ++ chars "\n")] ∧ out.providerCalls = []) ∧
       (startsWith r.authHeader (chars "Basic ") = false →
        ∃ out, dynDNSUpdateHandler prov r = some out ∧
          out.writes = [(401, MsgBadAuth ++ chars "\n")] ∧ out.providerCalls = []) ∧
       (decodeBase64 (trimLeading r.authHeader (chars "Basic ")) = none →
        ∃ out, dynDNSUpdateHandler prov r = some out ∧
          out.writes = [(401, MsgBadAuth ++ chars "\n")] ∧ out.providerCalls = []) ∧
       (∀ payload,
        decodeBase64 (trimLeading r.authHeader (chars "Basic ")) = some payload →
        (splitN2 ':' (bytesToStr payload)).length ≠ 2 →
        ∃ out, dynDNSUpdateHandler prov r = some out ∧
          out.writes = [(401, MsgBadAuth ++ chars "\n")] ∧ out.providerCalls = []) ∧
       (∀ payload u pw,
        decodeBase64 (trimLeading r.authHeader (chars "Basic ")) = some payload →
        splitN2 ':' (bytesToStr payload) = [u, pw] →
        ¬(u = validUser ∧ pw = validPassword) →
        ∃ out, dynDNSUpdateHandler prov r = some out ∧
          out.writes = [(401, MsgBadAuth ++ chars "\n")] ∧ out.providerCalls = [])) := by
  intro prov r h1 h2
  have step : authUsername r = none →
      ∃ out, dynDNSUpdateHandler prov r = some out ∧
        out.writes = [(401, MsgBadAuth ++ chars "\n")] ∧ out.providerCalls = [] := by
    intro hn
    obtain ⟨e, he⟩ := handler_of_badAuth prov r h1 h2 hn
    exact ⟨_, he, rfl, rfl⟩
  refine ⟨?_, ?_, ?_, ?_, ?_⟩
  · intro h
    refine step ?_
    unfold authUsername
    rw [h]
    rfl
  · intro h
    refine step ?_
    simp [authUsername, h]
  · intro h
    refine step ?_
    simp [authUsername, h]
  · intro payload hdec hlen
    refine step ?_
    simp [authUsername, hdec, hlen]
  · intro payload u pw hdec hsp hup
    refine step ?_
    rcases not_and_or.mp hup with h | h <;> simp [authUsername, hdec, hsp, h]

/-- Witness for C4 at a concrete input: a valid GET request whose
Authorization header is absent. -/
theorem handler_badauth_modes_witness :
    ∃ out, dynDNSUpdateHandler none { reqGood with authHeader := [] } = some out ∧
      out.writes = [(401, MsgBadAuth ++ chars "\n")] ∧ out.providerCalls = [] :=
  (handler_badauth_modes none { reqGood with authHeader := [] }
    (by decide) (by decide)).1 rfl

/-- C5: every response the handler writes is the response-code line
`msg ++ "\n"`, where `msg` is one of exactly `badagent`, `badauth`,
`nofqdn`, `dnserr`, or `good <ip>`; the reserved protocol codes `nochg`,
`!donator`, `nohost`, `numhost`, `abuse`, `911` are never produced. -/
theorem handler_allowed_codes :
    ∀ (prov : Option ProviderFn) (r : Request),
      ∃ out sc msg, dynDNSUpdateHandler prov r = some out ∧
        out.writes = [(sc, msg ++ chars "\n")] ∧
        (msg = MsgBadAgent ∨ msg = MsgBadAuth ∨ msg = MsgNotFQDN ∨ msg = MsgDNSErr ∨
          msg = MsgGood ++ chars " " ++ r.myip) ∧
        msg ≠ MsgNoChg ∧ msg ≠ MsgNotDonator ∧ msg ≠ MsgNoHost ∧ msg ≠ MsgNumHost ∧
        msg ≠ MsgAbuse ∧ msg ≠ Msg911 := by
  intro prov r
  obtain ⟨u, f, i, calls, sc, msg, err, heq, hmsg, -⟩ := handler_shape prov r
  refine ⟨_, sc, msg, heq, rfl, hmsg, ?_, ?_, ?_, ?_, ?_, ?_⟩ <;>
    rcases hmsg with h | h | h | h | h <;> subst h <;>
    first
      | decide
      | simp [MsgGood, MsgNoChg, MsgNotDonator, MsgNoHost, MsgNumHost, MsgAbuse,
          Msg911, chars]

/-- C8: the validation pipeline is total and never panics: for every
request and provider, the handler produces a result (the partial
`parts[0]` access always succeeds) with exactly one response write,
exactly one log record, and at most one provider call. -/
theorem handler_total_single_outcome :
    ∀ (prov : Option ProviderFn) (r : Request),
      ∃ out, dynDNSUpdateHandler prov r = some out ∧
        out.writes.length = 1 ∧ out.logs.length = 1 ∧ out.providerCalls.length ≤ 1 := by
  intro prov r
  obtain ⟨u, f, i, calls, sc, msg, err, heq, -, hcalls⟩ := handler_shape prov r
  exact ⟨_, heq, rfl, rfl, hcalls⟩

/-- C9: regardless of outcome, exactly one structured log record is
emitted; it carries the final response code (the very line that is
written back, minus the newline), its status code, the elapsed duration,
and — once established by a successful auth — the username, fqdn and ip. -/
theorem handler_single_log_record :
    ∀ (prov : Option ProviderFn) (r : Request),
      ∃ out entry, dynDNSUpdateHandler prov r = some out ∧
        out.logs = [entry] ∧
        out.writes = [(entry.statusCode, entry.response ++ chars "\n")] ∧
        entry.duration = r.elapsed ∧
        (∀ u, uaBad r = false → r.method = chars "GET" → authUsername r = some u →
          entry.username = u ∧ entry.fqdn = r.hostname ∧ entry.ip = r.myip) := by
  intro prov r
  cases hua : uaBad r with
  | true =>
    refine ⟨_, _, handler_of_uaBad prov r hua, rfl, rfl, rfl, ?_⟩
    intro u h1 h2 h3
    exact Bool.noConfusion h1
  | false =>
    by_cases hm : r.method = chars "GET"
    · cases ha : authUsername r with
      | none =>
        obtain ⟨e, he⟩ := handler_of_badAuth prov r hua hm ha
        refine ⟨_, _, he, rfl, rfl, rfl, ?_⟩
        intro u h1 h2 h3
        exact Option.noConfusion h3
      | some u =>
        have hrun := handler_of_authOk prov r u hua hm ha
        obtain ⟨calls, sc, msg, err, heq, -, -⟩ := afterAuth_shape prov r u
        rw [heq] at hrun
        refine ⟨_, _, hrun, rfl, rfl, rfl, ?_⟩
        intro u' h1 h2 h3
        injection h3 with h4
        subst h4
        exact ⟨rfl, rfl, rfl⟩
    · refine ⟨_, _, handler_of_badMethod prov r hua hm, rfl, rfl, rfl, ?_⟩
      intro u h1 h2 h3
      exact absurd h2 hm

/-- Witness for C9's inner clause at a concrete input: the fully valid
request, whose single log record carries the username, fqdn and ip. -/
theorem handler_single_log_record_witness :
    ∃ out entry, dynDNSUpdateHandler none reqGood = some out ∧
      out.logs = [entry] ∧
      out.writes = [(entry.statusCode, entry.response ++ chars "\n")] ∧
      entry.duration = reqGood.elapsed ∧
      (∀ u, uaBad reqGood = false → reqGood.method = chars "GET" →
        authUsername reqGood = some u →
        entry.username = u ∧ entry.fqdn = reqGood.hostname ∧ entry.ip = reqGood.myip) :=
  handler_single_log_record none reqGood

/-- Witness for C1 at a concrete input: the membership equivalence
evaluated for `home.blahonga.me` against the `blahonga.me` provider. -/
theorem validateFQDN_zone_membership_witness :
    blahongaProvider.validateFQDN (chars "home.blahonga.me") = .ok () ↔
      ((trimSuffix (chars "home.blahonga.me") (chars ".") =
          trimSuffix blahongaProvider.zoneName (chars ".") ∨
        endsWith (trimSuffix (chars "home.blahonga.me") (chars "."))
          (chars "." ++ trimSuffix blahongaProvider.zoneName (chars ".")) = true) ∧
       stringsCount (trimSuffix (chars "home.blahonga.me") (chars "."))
         (trimSuffix blahongaProvider.zoneName (chars ".")) ≤ 1) :=
  validateFQDN_zone_membership.1 blahongaProvider (chars "home.blahonga.me")

/-- Witness for C5 at a concrete input. -/
theorem handler_allowed_codes_witness :
    ∃ out sc msg, dynDNSUpdateHandler none reqGood = some out ∧
      out.writes = [(sc, msg ++ chars "\n")] ∧
      (msg = MsgBadAgent ∨ msg = MsgBadAuth ∨ msg = MsgNotFQDN ∨ msg = MsgDNSErr ∨
        msg = MsgGood ++ chars " " ++ reqGood.myip) ∧
      msg ≠ MsgNoChg ∧ msg ≠ MsgNotDonator ∧ msg ≠ MsgNoHost ∧ msg ≠ MsgNumHost ∧
      msg ≠ MsgAbuse ∧ msg ≠ Msg911 :=
  handler_allowed_codes none reqGood

/-- Witness for C8 at a concrete input. -/
theorem handler_total_single_outcome_witness :
    ∃ out, dynDNSUpdateHandler (some fun _ _ => .ok ()) reqGood = some out ∧
      out.writes.length = 1 ∧ out.logs.length = 1 ∧ out.providerCalls.length ≤ 1 :=
  handler_total_single_outcome (some fun _ _ => .ok ()) reqGood

end DynDnsR53
